import Mathlib

/-!
Shallow embedding of the golem test-framework DSL client
(`golem-test-framework/src/dsl/mod.rs`) and of the worker-bridge API
definition conversions
(`golem-worker-bridge/src/api/api_definition_endpoints.rs`).

Conventions of the embedding:
* gRPC services are passed as explicit functions from requests to responses;
* the wall clock (`Timestamp::now_utc()`) is passed as an explicit argument;
* a Rust panic (`panic!`, `unwrap`, `expect`) is modelled by the
  `DslOutcome.panics` constructor carrying the panic message of the source;
* protobuf optional fields are `Option`; the fallible protobuf-to-model
  conversions (`try_into`) are explicit `Except` functions;
* external library functions (the serde JSON parser, the WASM component
  parser) are passed as explicit function arguments.
-/

namespace GolemSpec

/-! Identifiers (golem_common::model). `TemplateId` is an opaque 128-bit id,
modelled as a natural number. -/

structure TemplateId where
  value : Nat
  deriving DecidableEq, Repr

structure WorkerId where
  templateId : TemplateId
  workerName : String
  deriving DecidableEq, Repr

/-- gRPC `WorkerId` message: the template id field is optional on the wire. -/
structure GrpcWorkerId where
  templateId : Option TemplateId
  workerName : String
  deriving DecidableEq, Repr

/-- Models `worker_id.clone().into()` building the gRPC message. -/
def WorkerId.toGrpc (w : WorkerId) : GrpcWorkerId :=
  ⟨some w.templateId, w.workerName⟩

/-- Models `TryFrom<grpc WorkerId> for WorkerId`: fails when the optional
template id is absent. -/
def GrpcWorkerId.tryIntoWorkerId (w : GrpcWorkerId) : Except String WorkerId :=
  match w.templateId with
  | none => Except.error ("missing template_id")
  | some t => Except.ok ⟨t, w.workerName⟩

structure InvocationKey where
  value : String
  deriving DecidableEq, Repr

structure AccountId where
  value : String
  deriving DecidableEq, Repr

/-- Timestamps are opaque instants; modelled as naturals. -/
structure Timestamp where
  value : Nat
  deriving DecidableEq, Repr

/-- gRPC `CallingConvention` enumeration. -/
inductive CallingConvention where
  | component
  | stdio
  | stdioEventloop
  deriving DecidableEq, Repr

/-! JSON values (serde_json::Value), numbers restricted to integers — no
claim of this development inspects a JSON number. -/

inductive Json where
  | null
  | bool (b : Bool)
  | num (n : Int)
  | str (s : String)
  | arr (xs : List Json)
  | obj (fields : List (String × Json))

/-- Escape one character of a JSON string literal. -/
def Json.escapeChar (c : Char) : String :=
  if c = '"' then ("\\\"")
  else if c = '\\' then ("\\\\")
  else if c = '\n' then ("\\n")
  else if c = '\t' then ("\\t")
  else if c = '\r' then ("\\r")
  else String.singleton c

/-- Render a JSON string literal with quotes and escaping. -/
def Json.renderString (s : String) : String :=
  "\"" ++ String.join (s.data.map Json.escapeChar) ++ "\""

mutual

/-- Compact rendering of a JSON value, modelling
`serde_json::Value::to_string()`. -/
def Json.render : Json → String
  | .null => "null"
  | .bool true => "true"
  | .bool false => "false"
  | .num n => toString n
  | .str s => Json.renderString s
  | .arr xs => "[" ++ Json.renderArr xs ++ "]"
  | .obj fs => "\x7b" ++ Json.renderObj fs ++ "\x7d"

def Json.renderArr : List Json → String
  | [] => ""
  | [x] => Json.render x
  | x :: y :: xs => Json.render x ++ "," ++ Json.renderArr (y :: xs)

def Json.renderObj : List (String × Json) → String
  | [] => ""
  | [kv] => Json.renderString kv.1 ++ ":" ++ Json.render kv.2
  | kv :: kv2 :: xs =>
      Json.renderString kv.1 ++ ":" ++ Json.render kv.2 ++ "," ++
        Json.renderObj (kv2 :: xs)

end

/-! Component model values (golem_wasm_rpc::Value): the tagged tree of §6.
Floats are carried as raw bit patterns; no claim inspects them. -/

inductive Value where
  | bool (b : Bool)
  | s8 (n : Int)
  | u8 (n : Nat)
  | s16 (n : Int)
  | u16 (n : Nat)
  | s32 (n : Int)
  | u32 (n : Nat)
  | s64 (n : Int)
  | u64 (n : Nat)
  | f32 (bits : Nat)
  | f64 (bits : Nat)
  | char (c : Char)
  | string (s : String)
  | list (xs : List Value)
  | record (fields : List Value)
  | variant (tag : Nat) (value : Option Value)
  | tuple (xs : List Value)
  | option (v : Option Value)
  | result (r : Sum (Option Value) (Option Value))
  | flags (bs : List Bool)
  | enum (tag : Nat)

/-- Wire (protobuf) form of a value: the payload is optional on the wire, an
absent payload is a malformed message. -/
def WireValue : Type := Option Value

/-- Models `Value::into()` producing the protobuf value. -/
def Value.toWire (v : Value) : WireValue := some v

/-- Models `TryFrom<proto Val> for Value`: fails on a malformed message. -/
def wireToValue (w : WireValue) : Except String Value :=
  match w with
  | some v => Except.ok v
  | none => Except.error ("unexpected format")

/-- Models `collect::<Result<Vec<Value>, String>>()` over the converted
values of a response payload. -/
def collectValues : List WireValue → Except String (List Value)
  | [] => Except.ok []
  | w :: ws =>
      match wireToValue w with
      | Except.error e => Except.error e
      | Except.ok v =>
          match collectValues ws with
          | Except.error e => Except.error e
          | Except.ok vs => Except.ok (v :: vs)

/-! Error taxonomy (golem_api_grpc worker errors, §7). The
`WorkerExecutionError` message holds an optional inner error; payload
structures are flattened to the fields the DSL reads. -/

inductive WorkerExecutionErrorKind where
  | invalidRequest (details : String)
  | workerAlreadyExists (workerId : Option GrpcWorkerId)
  | workerCreationFailed (workerId : Option GrpcWorkerId) (details : String)
  | failedToResumeWorker (workerId : Option GrpcWorkerId)
  | templateDownloadFailed (templateId : Option TemplateId)
      (templateVersion : Nat) (reason : String)
  | templateParseFailed (templateId : Option TemplateId)
      (templateVersion : Nat) (reason : String)
  | getLatestVersionOfTemplateFailed (templateId : Option TemplateId)
      (reason : String)
  | promiseNotFound (promiseId : Option String)
  | promiseDropped (promiseId : Option String)
  | promiseAlreadyCompleted (promiseId : Option String)
  | interrupted (recoverImmediately : Bool)
  | paramTypeMismatch
  | noValueInMessage
  | valueMismatch (details : String)
  | unexpectedOplogEntry (expected : String) (got : String)
  | runtimeError (details : String)
  | invalidShardId (shardId : Int) (shardIds : List Int)
  | previousInvocationFailed (details : String)
  | unknown (details : String)
  | previousInvocationExited
  | invalidAccount
  | workerNotFound (workerId : Option GrpcWorkerId)
  deriving DecidableEq, Repr

/-- Client-facing error (`worker_error::Error`). `internalError` carries the
`WorkerExecutionError` message, i.e. an optional inner kind; the bodies of
the simple variants are flattened to their message strings. -/
inductive Error where
  | badRequest (errors : List String)
  | unauthorized (message : String)
  | limitExceeded (message : String)
  | notFound (message : String)
  | alreadyExists (message : String)
  | internalError (inner : Option WorkerExecutionErrorKind)
  deriving DecidableEq, Repr

/-- gRPC `WorkerError` wrapper message: the error detail is optional. -/
structure WorkerErrorMsg where
  error : Option Error
  deriving DecidableEq, Repr

/-- Outcome of a DSL client call: either a value is returned or the client
panics with the given message. -/
inductive DslOutcome (α : Type) where
  | panics (msg : String)
  | returns (a : α)
  deriving DecidableEq, Repr

def DslOutcome.bind {α β : Type} : DslOutcome α → (α → DslOutcome β) → DslOutcome β
  | .panics m, _ => .panics m
  | .returns a, f => f a

/-! Requests and responses of the control-plane RPC calls used below. -/

structure LaunchNewWorkerRequest where
  templateId : Option TemplateId
  workerName : String
  args : List String
  env : List (String × String)

structure GrpcVersionedWorkerId where
  workerId : Option GrpcWorkerId
  templateVersion : Nat
  deriving DecidableEq, Repr

inductive LaunchNewWorkerResult where
  | success (v : GrpcVersionedWorkerId)
  | error (e : WorkerErrorMsg)
  deriving DecidableEq, Repr

structure LaunchNewWorkerResponse where
  result : Option LaunchNewWorkerResult
  deriving DecidableEq, Repr

structure InvokeParameters where
  params : List WireValue

structure InvokeAndAwaitRequest where
  workerId : Option GrpcWorkerId
  function : String
  invokeParameters : Option InvokeParameters
  invocationKey : Option InvocationKey
  callingConvention : CallingConvention

structure InvokeResultPayload where
  result : List WireValue

inductive InvokeAndAwaitResult where
  | success (r : InvokeResultPayload)
  | error (e : WorkerErrorMsg)

structure InvokeAndAwaitResponse where
  result : Option InvokeAndAwaitResult

structure GetInvocationKeyRequest where
  workerId : Option GrpcWorkerId

inductive GetInvocationKeyResult where
  | success (k : InvocationKey)
  | error (e : WorkerErrorMsg)
  deriving DecidableEq, Repr

structure GetInvocationKeyResponse where
  result : Option GetInvocationKeyResult
  deriving DecidableEq, Repr

/-! The DSL client handlers (`impl TestDsl for T` in dsl/mod.rs). -/

/-- Models `try_start_worker_with`: build the launch request, send it, and
match the response envelope exactly as the source does. -/
def try_start_worker_with
    (createWorker : LaunchNewWorkerRequest → LaunchNewWorkerResponse)
    (templateId : TemplateId) (name : String)
    (args : List String) (env : List (String × String)) :
    DslOutcome (Except Error WorkerId) :=
  let response := createWorker ⟨some templateId, name, args, env⟩
  match response.result with
  | none => .panics ("No response from create_worker")
  | some (.success versionedWorkerId) =>
      match versionedWorkerId.workerId with
      | none => .panics ("called unwrap on a None value")
      | some grpcId =>
          match grpcId.tryIntoWorkerId with
          | Except.error _ => .panics ("Failed to parse result worker id")
          | Except.ok workerId => .returns (Except.ok workerId)
  | some (.error ⟨some err⟩) => .returns (Except.error err)
  | some (.error ⟨none⟩) => .panics ("Error response without any details")

/-- Models `get_invocation_key`: send the request and match the envelope;
both an empty envelope and an error envelope panic in the source. -/
def get_invocation_key
    (svc : GetInvocationKeyRequest → GetInvocationKeyResponse)
    (workerId : WorkerId) : DslOutcome InvocationKey :=
  match (svc ⟨some workerId.toGrpc⟩).result with
  | none => .panics ("Invocation key response is empty")
  | some (.success k) => .returns k
  | some (.error _) => .panics ("Failed to get invocation key")

/-- Models `invoke_and_await_custom_with_key`: build the invoke request with
the given invocation key and calling convention, send it, and match the
response envelope exactly as the source does. -/
def invoke_and_await_custom_with_key
    (invokeAndAwait : InvokeAndAwaitRequest → InvokeAndAwaitResponse)
    (workerId : WorkerId) (invocationKey : InvocationKey)
    (functionName : String) (params : List Value) (cc : CallingConvention) :
    DslOutcome (Except Error (List Value)) :=
  let response := invokeAndAwait
    ⟨some workerId.toGrpc, functionName,
      some ⟨params.map Value.toWire⟩, some invocationKey, cc⟩
  match response.result with
  | none => .panics ("No response from invoke_and_await")
  | some (.success payload) =>
      match collectValues payload.result with
      | Except.error _ => .panics ("Invocation result had unexpected format")
      | Except.ok vals => .returns (Except.ok vals)
  | some (.error ⟨some err⟩) => .returns (Except.error err)
  | some (.error ⟨none⟩) => .panics ("Empty error response from invoke_and_await")

/-- Models `invoke_and_await_custom`: obtain an invocation key, then call
`invoke_and_await_custom_with_key`. -/
def invoke_and_await_custom
    (invokeAndAwait : InvokeAndAwaitRequest → InvokeAndAwaitResponse)
    (keySvc : GetInvocationKeyRequest → GetInvocationKeyResponse)
    (workerId : WorkerId) (functionName : String)
    (params : List Value) (cc : CallingConvention) :
    DslOutcome (Except Error (List Value)) :=
  (get_invocation_key keySvc workerId).bind fun invocationKey =>
    invoke_and_await_custom_with_key invokeAndAwait workerId invocationKey
      functionName params cc

/-- The stdio result message of the source, shared verbatim by
`invoke_and_await_stdio` and `invoke_and_await_stdio_eventloop`. -/
def stdioExpectMsg : String :=
  "Expecting a single string as the result value when using stdio calling convention"

/-- Models `invoke_and_await_stdio`: serialise the JSON parameters to one
string, invoke under `CallingConvention::Stdio`, and post-process the result
values as the source closure does (`from_str` models
`serde_json::from_str`). -/
def invoke_and_await_stdio
    (invokeAndAwait : InvokeAndAwaitRequest → InvokeAndAwaitResponse)
    (keySvc : GetInvocationKeyRequest → GetInvocationKeyResponse)
    (from_str : String → Option Json)
    (workerId : WorkerId) (functionName : String) (params : Json) :
    DslOutcome (Except Error Json) :=
  let json_string := params.render
  (invoke_and_await_custom invokeAndAwait keySvc workerId functionName
      [Value.string json_string] CallingConvention.stdio).bind fun res =>
    .returns <| res.bind fun vals =>
      match vals with
      | [Value.string s] =>
          if s = "" then Except.ok Json.null
          else Except.ok ((from_str s).getD (Json.str s))
      | [_] => Except.error (Error.badRequest [stdioExpectMsg])
      | _ => Except.error (Error.badRequest [stdioExpectMsg])

/-- Models `invoke_and_await_stdio_eventloop`: identical post-processing to
`invoke_and_await_stdio`, but invoking under
`CallingConvention::StdioEventloop`. -/
def invoke_and_await_stdio_eventloop
    (invokeAndAwait : InvokeAndAwaitRequest → InvokeAndAwaitResponse)
    (keySvc : GetInvocationKeyRequest → GetInvocationKeyResponse)
    (from_str : String → Option Json)
    (workerId : WorkerId) (functionName : String) (params : Json) :
    DslOutcome (Except Error Json) :=
  let json_string := params.render
  (invoke_and_await_custom invokeAndAwait keySvc workerId functionName
      [Value.string json_string] CallingConvention.stdioEventloop).bind fun res =>
    .returns <| res.bind fun vals =>
      match vals with
      | [Value.string s] =>
          if s = "" then Except.ok Json.null
          else Except.ok ((from_str s).getD (Json.str s))
      | [_] => Except.error (Error.badRequest [stdioExpectMsg])
      | _ => Except.error (Error.badRequest [stdioExpectMsg])

/-! Worker metadata (golem_common::model::WorkerMetadata and the gRPC
metadata message, as read by `to_worker_metadata`). -/

/-- Worker status enumeration.  Modelled from the spec: §3 gives
`status ∈ Running, Suspended, Interrupted, Failed, Exited`; the wire
integer encoding of the protobuf enum is not under src, so conversion
accepts exactly these five states in order and rejects anything else. -/
inductive WorkerStatus where
  | running
  | suspended
  | interrupted
  | failed
  | exited
  deriving DecidableEq, Repr

/-- Modelled from the spec: conversion of the wire status integer
(`metadata.status.try_into()`); out-of-range values fail. -/
def workerStatusFromWire (n : Int) : Except String WorkerStatus :=
  if n = 0 then Except.ok WorkerStatus.running
  else if n = 1 then Except.ok WorkerStatus.suspended
  else if n = 2 then Except.ok WorkerStatus.interrupted
  else if n = 3 then Except.ok WorkerStatus.failed
  else if n = 4 then Except.ok WorkerStatus.exited
  else Except.error ("invalid status")

/-- Retry configuration (opaque to the DSL: it is only ever absent). -/
structure RetryConfig where
  maxAttempts : Nat
  deriving DecidableEq, Repr

/-- Deleted oplog regions; `DeletedRegions::new()` is the empty set. -/
structure DeletedRegions where
  regions : List (Nat × Nat)
  deriving DecidableEq, Repr

def DeletedRegions.new : DeletedRegions := ⟨[]⟩

structure WorkerStatusRecord where
  oplogIdx : Nat
  status : WorkerStatus
  overriddenRetryConfig : Option RetryConfig
  deletedRegions : DeletedRegions
  deriving DecidableEq, Repr

structure VersionedWorkerId where
  workerId : WorkerId
  templateVersion : Nat
  deriving DecidableEq, Repr

structure WorkerMetadata where
  workerId : VersionedWorkerId
  args : List String
  env : List (String × String)
  accountId : AccountId
  createdAt : Timestamp
  lastKnownStatus : WorkerStatusRecord
  deriving DecidableEq, Repr

/-- gRPC worker metadata message: the fields `to_worker_metadata` reads. -/
structure GrpcWorkerMetadata where
  workerId : Option GrpcWorkerId
  templateVersion : Nat
  args : List String
  env : List (String × String)
  accountId : Option AccountId
  status : Int
  deriving DecidableEq, Repr

/-- Models `to_worker_metadata`: converts the gRPC metadata message,
panicking (`expect`) on absent or invalid fields.  The clock is passed
explicitly: the source fills `created_at` with `Timestamp::now_utc()`. -/
def to_worker_metadata (now : Timestamp) (metadata : GrpcWorkerMetadata) :
    DslOutcome WorkerMetadata :=
  match metadata.workerId with
  | none => .panics ("no worker_id")
  | some grpcId =>
      match grpcId.tryIntoWorkerId with
      | Except.error _ => .panics ("invalid worker_id")
      | Except.ok workerId =>
          match metadata.accountId with
          | none => .panics ("no account_id")
          | some accountId =>
              match workerStatusFromWire metadata.status with
              | Except.error _ => .panics ("invalid status")
              | Except.ok status =>
                  .returns
                    { workerId := ⟨workerId, metadata.templateVersion⟩
                      args := metadata.args
                      env := metadata.env
                      accountId := accountId
                      createdAt := now
                      lastKnownStatus :=
                        { oplogIdx := 0
                          status := status
                          overriddenRetryConfig := none
                          deletedRegions := DeletedRegions.new } }

structure GetWorkerMetadataRequest where
  workerId : Option GrpcWorkerId

inductive GetWorkerMetadataResult where
  | success (m : GrpcWorkerMetadata)
  | error (e : WorkerErrorMsg)
  deriving DecidableEq, Repr

structure GetWorkerMetadataResponse where
  result : Option GetWorkerMetadataResult
  deriving DecidableEq, Repr

/-- Models the DSL `get_worker_metadata`: send the request and match the
envelope; `NotFound` and `InternalError(WorkerNotFound)` become `none`, any
other error panics. -/
def get_worker_metadata
    (svc : GetWorkerMetadataRequest → GetWorkerMetadataResponse)
    (now : Timestamp) (workerId : WorkerId) :
    DslOutcome (Option WorkerMetadata) :=
  match (svc ⟨some workerId.toGrpc⟩).result with
  | none => .panics ("No response from connect_worker")
  | some (.success metadata) =>
      (to_worker_metadata now metadata).bind fun md => .returns (some md)
  | some (.error ⟨some (Error.notFound _)⟩) => .returns none
  | some (.error ⟨some (Error.internalError
      (some (WorkerExecutionErrorKind.workerNotFound _)))⟩) => .returns none
  | some (.error _) => .panics ("Failed to get worker metadata")

/-- Modelled from the spec: the worker service side of
`get_worker_metadata` — the service knows a finite set of existing workers
and, for a worker id that does not name one of them, returns a `NotFound`
error inside the response envelope rather than an exception (§7). -/
def spec_get_worker_metadata_service
    (known : List (WorkerId × GrpcWorkerMetadata))
    (req : GetWorkerMetadataRequest) : GetWorkerMetadataResponse :=
  match req.workerId with
  | none =>
      ⟨some (.error ⟨some (Error.badRequest ["missing worker id"])⟩)⟩
  | some grpcId =>
      match grpcId.tryIntoWorkerId with
      | Except.error e =>
          ⟨some (.error ⟨some (Error.badRequest [e])⟩)⟩
      | Except.ok w =>
          match known.find? (fun p => decide (p.1 = w)) with
          | some p => ⟨some (.success p.2)⟩
          | none =>
              ⟨some (.error ⟨some (Error.notFound ("Worker not found"))⟩)⟩

/-! Interrupt operations of the DSL. -/

structure InterruptWorkerRequest where
  workerId : Option GrpcWorkerId
  recoverImmediately : Bool

inductive InterruptWorkerResult where
  | success
  | error (e : WorkerErrorMsg)
  deriving DecidableEq, Repr

structure InterruptWorkerResponse where
  result : Option InterruptWorkerResult
  deriving DecidableEq, Repr

/-- Models the DSL `interrupt`: sends `recover_immediately = false`. -/
def interrupt
    (svc : InterruptWorkerRequest → InterruptWorkerResponse)
    (workerId : WorkerId) : DslOutcome Unit :=
  match (svc ⟨some workerId.toGrpc, false⟩).result with
  | some .success => .returns ()
  | some (.error _) => .panics ("Failed to interrupt worker")
  | none => .panics ("Failed to interrupt worker: unknown error")

/-- Models the DSL `simulated_crash`: sends `recover_immediately = true`. -/
def simulated_crash
    (svc : InterruptWorkerRequest → InterruptWorkerResponse)
    (workerId : WorkerId) : DslOutcome Unit :=
  match (svc ⟨some workerId.toGrpc, true⟩).result with
  | some .success => .returns ()
  | some (.error _) => .panics ("Failed to crash worker")
  | none => .panics ("Failed to crash worker: unknown error")

/-! Human-readable error messages (`worker_error_message`).  The Rust
`{:?}` debug renderings of id payloads are approximated by explicit
rendering helpers; no claim depends on their exact text. -/

def dbgOptWorkerId : Option GrpcWorkerId → String
  | none => "None"
  | some w => "Some(WorkerId(" ++ toString w.templateId.isSome ++ ", " ++
      w.workerName ++ "))"

def dbgOptTemplateId : Option TemplateId → String
  | none => "None"
  | some t => "Some(TemplateId(" ++ toString t.value ++ "))"

def dbgOptPromiseId : Option String → String
  | none => "None"
  | some p => "Some(" ++ p ++ ")"

/-- Models `worker_error_message`: the message shown for each client error,
branch for branch as in the source. -/
def worker_error_message (error : Error) : String :=
  match error with
  | .badRequest errors => String.intercalate (", ") errors
  | .unauthorized e => e
  | .limitExceeded e => e
  | .notFound e => e
  | .alreadyExists e => e
  | .internalError none => "Internal error"
  | .internalError (some err) =>
      match err with
      | .invalidRequest details => details
      | .workerAlreadyExists wid =>
          "Worker already exists: " ++ dbgOptWorkerId wid
      | .workerCreationFailed wid details =>
          "Worker creation failed: " ++ dbgOptWorkerId wid ++ ": " ++ details
      | .failedToResumeWorker wid =>
          "Failed to resume worker: " ++ dbgOptWorkerId wid
      | .templateDownloadFailed tid v reason =>
          "Failed to download template: " ++ dbgOptTemplateId tid ++
            " version " ++ toString v ++ ": " ++ reason
      | .templateParseFailed tid v reason =>
          "Failed to parse template: " ++ dbgOptTemplateId tid ++
            " version " ++ toString v ++ ": " ++ reason
      | .getLatestVersionOfTemplateFailed tid reason =>
          "Failed to get latest version of template: " ++
            dbgOptTemplateId tid ++ ": " ++ reason
      | .promiseNotFound pid => "Promise not found: " ++ dbgOptPromiseId pid
      | .promiseDropped pid => "Promise dropped: " ++ dbgOptPromiseId pid
      | .promiseAlreadyCompleted pid =>
          "Promise already completed: " ++ dbgOptPromiseId pid
      | .interrupted recoverImmediately =>
          if recoverImmediately then ("Simulated crash")
          else ("Interrupted via the Golem API")
      | .paramTypeMismatch => "Parameter type mismatch"
      | .noValueInMessage => "No value in message"
      | .valueMismatch details => "Value mismatch: " ++ details
      | .unexpectedOplogEntry expected got =>
          "Unexpected oplog entry; Expected: " ++ expected ++ ", got: " ++ got
      | .runtimeError details => "Runtime error: " ++ details
      | .invalidShardId shardId shardIds =>
          "Invalid shard id: " ++ toString shardId ++ "; ids: " ++
            toString shardIds
      | .previousInvocationFailed details =>
          "Previous invocation failed: " ++ details
      | .unknown details => "Unknown error: " ++ details
      | .previousInvocationExited => "Previous invocation exited"
      | .invalidAccount => "Invalid account id"
      | .workerNotFound wid => "Worker not found: " ++ dbgOptWorkerId wid

/-! Template upload.  The template service implementation is not under
src; only the DSL entry points (`store_template`, `dump_template_info`)
are. -/

inductive TemplateError where
  | templateParseFailed (reason : String)
  deriving DecidableEq, Repr

/-- Modelled from the spec: the template service `put` operation (§4.1) —
metadata extraction parses the WASM component (here the external parser is
the `parse` argument); parse failure fails the upload with
`TemplateParseFailed` carrying the reason and creates no version; `put` is
idempotent on identical bytes and otherwise appends a new version.  The
store is the list of stored byte vectors; a version is an index into it. -/
def template_put (parse : List Nat → Except String Unit)
    (store : List (List Nat)) (bytes : List Nat) :
    List (List Nat) × Except TemplateError Nat :=
  match parse bytes with
  | Except.error reason =>
      (store, Except.error (TemplateError.templateParseFailed reason))
  | Except.ok _ =>
      match store.findIdx? (fun b => decide (b = bytes)) with
      | some i => (store, Except.ok i)
      | none => (store ++ [bytes], Except.ok store.length)

/-- Models `dump_template_info` (dsl/mod.rs): read the template bytes,
parse them as a WASM component and analyse the top-level exports,
panicking (`unwrap`) on either failure.  `parse` models
`Component::from_bytes`, `analyse` the export analysis. -/
def dump_template_info (parse : List Nat → Except String Unit)
    (analyse : Unit → Except String (List String)) (bytes : List Nat) :
    DslOutcome (List String) :=
  match parse bytes with
  | Except.error _ => .panics ("called unwrap on parse failure")
  | Except.ok c =>
      match analyse c with
      | Except.error _ => .panics ("called unwrap on analysis failure")
      | Except.ok exports => .returns exports

/-! Well-formed response envelopes (§4.9 / §7: every envelope carries
either a success payload or an error with populated taxonomy). -/

def launchEnvelopeOk : LaunchNewWorkerResponse → Bool
  | ⟨none⟩ => false
  | ⟨some (.success _)⟩ => true
  | ⟨some (.error ⟨none⟩)⟩ => false
  | ⟨some (.error ⟨some _⟩)⟩ => true

def invokeAwaitEnvelopeOk : InvokeAndAwaitResponse → Bool
  | ⟨none⟩ => false
  | ⟨some (.success _)⟩ => true
  | ⟨some (.error ⟨none⟩)⟩ => false
  | ⟨some (.error ⟨some _⟩)⟩ => true

/-- Is this outcome one of the panics guarding an ill-formed response
envelope (no result at all, or an error with no detail)? -/
def envelopePanic {α : Type} : DslOutcome α → Bool
  | .panics m =>
      decide (m = "No response from create_worker") ||
      decide (m = "Error response without any details") ||
      decide (m = "No response from invoke_and_await") ||
      decide (m = "Empty error response from invoke_and_await")
  | .returns _ => false

/-- Does `get_worker_metadata` treat this error as absence of metadata? -/
def treatedAsAbsence : Error → Bool
  | .notFound _ => true
  | .internalError (some (WorkerExecutionErrorKind.workerNotFound _)) => true
  | _ => false

/-! Worker-bridge API definition DTO conversions
(`api/api_definition_endpoints.rs`).  The internal `api_definition` types
carry the expression language `Expr` and the parsed `PathPattern`; both
live outside src, so they are abstracted as type parameters together with
the external functions the conversions call on them. -/

/-- HTTP method patterns of a route (worker-bridge `MethodPattern`, copied
verbatim by the conversions). -/
inductive MethodPattern where
  | get
  | post
  | put
  | delete
  | patch
  | head
  | options
  | trace
  | connect
  deriving DecidableEq, Repr

/-- Modelled from the spec: the worker-bridge `Expr` expression language
and its serde JSON codec are not under src (only the conversions calling
them are); they are abstracted as the type `Expr` with its
`serde_json::to_value` and `serde_json::from_value` functions. -/
structure ExprCodec (Expr : Type) where
  toValue : Expr → Except String Json
  fromValue : Json → Except String Expr

/-- Modelled from the spec: the worker-bridge `PathPattern` with its
`to_string` rendering and `PathPattern::from` parser, abstracted. -/
structure PathCodec (PathPattern : Type) where
  render : PathPattern → String
  parsePath : String → Except String PathPattern

structure ResponseMappingCore (Expr : Type) where
  body : Expr
  status : Expr
  headers : List (String × Expr)

structure GolemWorkerBindingCore (Expr : Type) where
  template : TemplateId
  workerId : Expr
  functionName : String
  functionParams : List Expr
  response : Option (ResponseMappingCore Expr)

structure RouteCore (Expr PathPattern : Type) where
  method : MethodPattern
  path : PathPattern
  binding : GolemWorkerBindingCore Expr

structure ApiDefinitionCore (Expr PathPattern : Type) where
  id : String
  version : String
  routes : List (RouteCore Expr PathPattern)

structure ResponseMappingDto where
  body : Json
  status : Json
  headers : List (String × Json)

structure GolemWorkerBindingDto where
  template : TemplateId
  workerId : Json
  functionName : String
  functionParams : List Json
  response : Option ResponseMappingDto

structure RouteDto where
  method : MethodPattern
  path : String
  binding : GolemWorkerBindingDto

structure ApiDefinitionDto where
  id : String
  version : String
  routes : List RouteDto

/-- Sequential fallible map, modelling the source's for-loop accumulation
with the question-mark operator. -/
def mapE {α β : Type} (f : α → Except String β) :
    List α → Except String (List β)
  | [] => Except.ok []
  | x :: xs =>
      match f x with
      | Except.error e => Except.error e
      | Except.ok y =>
          match mapE f xs with
          | Except.error e => Except.error e
          | Except.ok ys => Except.ok (y :: ys)

/-- Models `TryFrom<api_definition::ResponseMapping> for ResponseMapping`. -/
def responseMapping_tryFrom {Expr : Type} (c : ExprCodec Expr)
    (v : ResponseMappingCore Expr) : Except String ResponseMappingDto := do
  let body ← c.toValue v.body
  let status ← c.toValue v.status
  let headers ← mapE (fun kv => do
    let j ← c.toValue kv.2
    pure (kv.1, j)) v.headers
  pure ⟨body, status, headers⟩

/-- Models `TryInto<api_definition::ResponseMapping> for ResponseMapping`. -/
def responseMapping_tryInto {Expr : Type} (c : ExprCodec Expr)
    (v : ResponseMappingDto) : Except String (ResponseMappingCore Expr) := do
  let body ← c.fromValue v.body
  let status ← c.fromValue v.status
  let headers ← mapE (fun kv => do
    let e ← c.fromValue kv.2
    pure (kv.1, e)) v.headers
  pure ⟨body, status, headers⟩

/-- Models `TryFrom<api_definition::GolemWorkerBinding>`. -/
def golemWorkerBinding_tryFrom {Expr : Type} (c : ExprCodec Expr)
    (v : GolemWorkerBindingCore Expr) : Except String GolemWorkerBindingDto := do
  let response ← match v.response with
    | some r => do
        let d ← responseMapping_tryFrom c r
        pure (some d)
    | none => pure none
  let workerId ← c.toValue v.workerId
  let functionParams ← mapE c.toValue v.functionParams
  pure ⟨v.template, workerId, v.functionName, functionParams, response⟩

/-- Models `TryInto<api_definition::GolemWorkerBinding>`. -/
def golemWorkerBinding_tryInto {Expr : Type} (c : ExprCodec Expr)
    (v : GolemWorkerBindingDto) : Except String (GolemWorkerBindingCore Expr) := do
  let response ← match v.response with
    | some r => do
        let d ← responseMapping_tryInto c r
        pure (some d)
    | none => pure none
  let workerId ← c.fromValue v.workerId
  let functionParams ← mapE c.fromValue v.functionParams
  pure ⟨v.template, workerId, v.functionName, functionParams, response⟩

/-- Models `TryFrom<api_definition::Route> for Route`. -/
def route_tryFrom {Expr PathPattern : Type} (c : ExprCodec Expr)
    (pc : PathCodec PathPattern) (v : RouteCore Expr PathPattern) :
    Except String RouteDto := do
  let path := pc.render v.path
  let binding ← golemWorkerBinding_tryFrom c v.binding
  pure ⟨v.method, path, binding⟩

/-- Models `TryInto<api_definition::Route> for Route`. -/
def route_tryInto {Expr PathPattern : Type} (c : ExprCodec Expr)
    (pc : PathCodec PathPattern) (v : RouteDto) :
    Except String (RouteCore Expr PathPattern) := do
  let path ← pc.parsePath v.path
  let binding ← golemWorkerBinding_tryInto c v.binding
  pure ⟨v.method, path, binding⟩

/-- Models `TryFrom<api_definition::ApiDefinition> for ApiDefinition`. -/
def apiDefinition_tryFrom {Expr PathPattern : Type} (c : ExprCodec Expr)
    (pc : PathCodec PathPattern) (v : ApiDefinitionCore Expr PathPattern) :
    Except String ApiDefinitionDto := do
  let routes ← mapE (route_tryFrom c pc) v.routes
  pure ⟨v.id, v.version, routes⟩

/-- Models `TryInto<api_definition::ApiDefinition> for ApiDefinition`. -/
def apiDefinition_tryInto {Expr PathPattern : Type} (c : ExprCodec Expr)
    (pc : PathCodec PathPattern) (v : ApiDefinitionDto) :
    Except String (ApiDefinitionCore Expr PathPattern) := do
  let routes ← mapE (route_tryInto c pc) v.routes
  pure ⟨v.id, v.version, routes⟩

/-! Auxiliary instantiations used by theorems and witnesses. -/

/-- A get-invocation-key service that always answers with the given key. -/
def okKeySvc (k : InvocationKey) :
    GetInvocationKeyRequest → GetInvocationKeyResponse :=
  fun _ => ⟨some (.success k)⟩

/-- An invoke-and-await service that always answers successfully with the
given result values. -/
def constSuccessSvc (vals : List Value) :
    InvokeAndAwaitRequest → InvokeAndAwaitResponse :=
  fun _ => ⟨some (.success ⟨vals.map Value.toWire⟩)⟩

/-- Specification-side interpretation of a Stdio result, written from the
spec's words (§6): the convention expects a single string result
containing JSON; the empty string means JSON null; a string that does not
parse as JSON is returned as a JSON string; any other result shape is a
bad request. -/
def specStdioInterpret (from_str : String → Option Json) :
    List Value → Except Error Json
  | [Value.string s] =>
      if s = "" then Except.ok Json.null
      else Except.ok ((from_str s).getD (Json.str s))
  | _ => Except.error (Error.badRequest [stdioExpectMsg])

/-- Trivial expression codec over `Unit` for the round-trip witness. -/
def unitCodec : ExprCodec Unit :=
  ⟨fun _ => Except.ok Json.null, fun _ => Except.ok ()⟩

/-- Path codec where patterns are their rendered strings. -/
def stringPathCodec : PathCodec String :=
  ⟨fun s => s, fun s => Except.ok s⟩

/-- Concrete internal API definition for the round-trip witness. -/
def apiDef0 : ApiDefinitionCore Unit String :=
  ⟨"api", "1",
    [⟨MethodPattern.get, "/p",
      ⟨⟨3⟩, (), "f", [()], some ⟨(), (), [("h", ())]⟩⟩⟩]⟩

/-- The DTO image of `apiDef0` under the conversions. -/
def apiDto0 : ApiDefinitionDto :=
  ⟨"api", "1",
    [⟨MethodPattern.get, "/p",
      ⟨⟨3⟩, Json.null, "f", [Json.null],
        some ⟨Json.null, Json.null, [("h", Json.null)]⟩⟩⟩]⟩

/-- Concrete gRPC metadata message for witnesses. -/
def grpcMeta0 : GrpcWorkerMetadata :=
  ⟨some ⟨some ⟨7⟩, "w"⟩, 1, [], [], some ⟨"acc"⟩, 0⟩

/-- Conversion of `grpcMeta0` observed at instant 42. -/
def workerMeta0 : WorkerMetadata :=
  ⟨⟨⟨⟨7⟩, "w"⟩, 1⟩, [], [], ⟨"acc"⟩, ⟨42⟩,
    ⟨0, WorkerStatus.running, none, DeletedRegions.new⟩⟩

/-! Theorems. -/

/-- All values converted to the wire and back collect to the original
list. -/
theorem collectValues_map_toWire (vals : List Value) :
    collectValues (vals.map Value.toWire) = Except.ok vals := by
  induction vals with
  | nil => rfl
  | cons v vs ih => simp [collectValues, Value.toWire, wireToValue, ih]

/-- `invoke_and_await_custom_with_key` against a constant success service
returns exactly the service's values. -/
theorem custom_with_key_constSuccess (vals ps : List Value) (w : WorkerId)
    (k : InvocationKey) (fn : String) (cc : CallingConvention) :
    invoke_and_await_custom_with_key (constSuccessSvc vals) w k fn ps cc
      = DslOutcome.returns (Except.ok vals) := by
  unfold invoke_and_await_custom_with_key constSuccessSvc
  dsimp only
  rw [collectValues_map_toWire]

/-- The stdio DSL call factors through the generic invoke-and-await with
the single JSON-string parameter, the Stdio convention, and the
specification-side result interpretation. -/
theorem stdio_factored
    (svc : InvokeAndAwaitRequest → InvokeAndAwaitResponse)
    (k : InvocationKey) (w : WorkerId) (fn : String)
    (from_str : String → Option Json) (params : Json) :
    invoke_and_await_stdio svc (okKeySvc k) from_str w fn params
      = (invoke_and_await_custom_with_key svc w k fn
            [Value.string params.render] CallingConvention.stdio).bind
          (fun res =>
            DslOutcome.returns (res.bind (specStdioInterpret from_str))) := by
  unfold invoke_and_await_stdio invoke_and_await_custom get_invocation_key
    okKeySvc
  dsimp only [DslOutcome.bind]
  congr 1
  funext res
  congr 1
  cases res with
  | error e => rfl
  | ok vals =>
      cases vals with
      | nil => rfl
      | cons v vs =>
          cases vs with
          | nil => cases v <;> rfl
          | cons v2 vs2 => cases v <;> rfl

/-- The stdio-eventloop DSL call factors the same way, under the
StdioEventloop convention. -/
theorem stdio_eventloop_factored
    (svc : InvokeAndAwaitRequest → InvokeAndAwaitResponse)
    (k : InvocationKey) (w : WorkerId) (fn : String)
    (from_str : String → Option Json) (params : Json) :
    invoke_and_await_stdio_eventloop svc (okKeySvc k) from_str w fn params
      = (invoke_and_await_custom_with_key svc w k fn
            [Value.string params.render] CallingConvention.stdioEventloop).bind
          (fun res =>
            DslOutcome.returns (res.bind (specStdioInterpret from_str))) := by
  unfold invoke_and_await_stdio_eventloop invoke_and_await_custom
    get_invocation_key okKeySvc
  dsimp only [DslOutcome.bind]
  congr 1
  funext res
  congr 1
  cases res with
  | error e => rfl
  | ok vals =>
      cases vals with
      | nil => rfl
      | cons v vs =>
          cases vs with
          | nil => cases v <;> rfl
          | cons v2 vs2 => cases v <;> rfl

/-- C4: for an invocation terminated by an interrupt, the `Interrupted`
error's human-readable message is exactly "Simulated crash" when
`recover_immediately` is true and exactly "Interrupted via the Golem API"
when it is false. -/
theorem interrupted_message (recoverImmediately : Bool) :
    worker_error_message
        (Error.internalError
          (some (WorkerExecutionErrorKind.interrupted recoverImmediately)))
      = (if recoverImmediately then ("Simulated crash")
        else ("Interrupted via the Golem API")) := by
  cases recoverImmediately <;> rfl

/-- C6: every worker metadata value returned by `to_worker_metadata` has
its `created_at` field populated with the time of observation (the clock
argument), not with the worker's genuine creation instant. -/
theorem created_at_is_observation_time
    (now : Timestamp) (m : GrpcWorkerMetadata) (md : WorkerMetadata)
    (h : to_worker_metadata now m = DslOutcome.returns md) :
    md.createdAt = now := by
  unfold to_worker_metadata at h
  cases hw : m.workerId with
  | none => rw [hw] at h; cases h
  | some grpcId =>
      rw [hw] at h
      dsimp only at h
      cases ht : grpcId.tryIntoWorkerId with
      | error e => rw [ht] at h; cases h
      | ok wid =>
          rw [ht] at h
          dsimp only at h
          cases ha : m.accountId with
          | none => rw [ha] at h; cases h
          | some acc =>
              rw [ha] at h
              dsimp only at h
              cases hs : workerStatusFromWire m.status with
              | error e => rw [hs] at h; cases h
              | ok st =>
                  rw [hs] at h
                  dsimp only at h
                  cases h
                  rfl

/-- Witness for C6 at a concrete metadata message. -/
theorem created_at_is_observation_time_witness :
    to_worker_metadata ⟨42⟩ grpcMeta0 = DslOutcome.returns workerMeta0
    ∧ workerMeta0.createdAt = ⟨42⟩ :=
  ⟨rfl, created_at_is_observation_time ⟨42⟩ grpcMeta0 workerMeta0 rfl⟩

/-- C3: a template upload whose bytes do not parse as a valid WASM
component fails with `TemplateParseFailed` carrying the parse reason, and
the store is unchanged — no template version is created. -/
theorem template_parse_failure_no_version
    (parse : List Nat → Except String Unit) (store : List (List Nat))
    (bytes : List Nat) (reason : String)
    (h : parse bytes = Except.error reason) :
    template_put parse store bytes
      = (store, Except.error (TemplateError.templateParseFailed reason)) := by
  unfold template_put
  rw [h]

/-- Witness for C3 with a parser rejecting everything. -/
theorem template_parse_failure_no_version_witness :
    template_put (fun _ => Except.error ("not a wasm component")) [] [0, 1]
      = ([], Except.error
          (TemplateError.templateParseFailed ("not a wasm component"))) :=
  template_parse_failure_no_version _ [] [0, 1] ("not a wasm component") rfl

/-- C5: for a worker id that does not name an existing worker, the service
answers with a `NotFound` error inside the response envelope and the DSL
client observes this as absence of metadata (`none`), without panicking. -/
theorem unknown_worker_metadata_is_none
    (known : List (WorkerId × GrpcWorkerMetadata)) (now : Timestamp)
    (w : WorkerId) (h : ∀ p ∈ known, p.1 ≠ w) :
    get_worker_metadata (spec_get_worker_metadata_service known) now w
      = DslOutcome.returns none := by
  have hf : known.find? (fun p => decide (p.1 = w)) = none := by
    apply List.find?_eq_none.mpr
    intro p hp
    simpa using h p hp
  have hsvc : spec_get_worker_metadata_service known ⟨some w.toGrpc⟩
      = ⟨some (.error ⟨some (Error.notFound ("Worker not found"))⟩)⟩ := by
    unfold spec_get_worker_metadata_service
    simp [WorkerId.toGrpc, GrpcWorkerId.tryIntoWorkerId, hf]
  unfold get_worker_metadata
  rw [hsvc]

/-- Witness for C5: the empty worker set and a concrete worker id. -/
theorem unknown_worker_metadata_is_none_witness :
    get_worker_metadata (spec_get_worker_metadata_service []) ⟨0⟩ ⟨⟨0⟩, "w"⟩
      = DslOutcome.returns none :=
  unknown_worker_metadata_is_none [] ⟨0⟩ ⟨⟨0⟩, "w"⟩ (by simp)

/-- C8: the DSL `get_worker_metadata` reports absence of metadata
(`returns none`) for an error response exactly when the error is
`NotFound` or `InternalError(WorkerNotFound)`; every other error class is
not treated as absence. -/
theorem metadata_absence_characterisation
    (e : Error) (now : Timestamp) (w : WorkerId) :
    (get_worker_metadata (fun _ => ⟨some (.error ⟨some e⟩)⟩) now w
        = DslOutcome.returns none)
      ↔ treatedAsAbsence e = true := by
  cases e with
  | badRequest errors => simp [get_worker_metadata, treatedAsAbsence]
  | unauthorized m => simp [get_worker_metadata, treatedAsAbsence]
  | limitExceeded m => simp [get_worker_metadata, treatedAsAbsence]
  | notFound m => simp [get_worker_metadata, treatedAsAbsence]
  | alreadyExists m => simp [get_worker_metadata, treatedAsAbsence]
  | internalError inner =>
      cases inner with
      | none => simp [get_worker_metadata, treatedAsAbsence]
      | some kind =>
          cases kind <;> simp [get_worker_metadata, treatedAsAbsence]

/-- C1: an invoke-and-await under the Stdio convention (and likewise
StdioEventloop) sends the parameters serialised as a single JSON string
value under the respective convention, and interprets a successful
single-string result as JSON, the empty string as JSON null and any other
string as its parse (falling back to the string itself). -/
theorem stdio_convention_request_and_interpretation
    (svc : InvokeAndAwaitRequest → InvokeAndAwaitResponse)
    (k : InvocationKey) (w : WorkerId) (fn : String)
    (from_str : String → Option Json) (params : Json) :
    (invoke_and_await_stdio svc (okKeySvc k) from_str w fn params
      = (invoke_and_await_custom_with_key svc w k fn
            [Value.string params.render] CallingConvention.stdio).bind
          (fun res =>
            DslOutcome.returns (res.bind (specStdioInterpret from_str))))
    ∧ (invoke_and_await_stdio_eventloop svc (okKeySvc k) from_str w fn params
      = (invoke_and_await_custom_with_key svc w k fn
            [Value.string params.render] CallingConvention.stdioEventloop).bind
          (fun res =>
            DslOutcome.returns (res.bind (specStdioInterpret from_str))))
    ∧ (∀ s, specStdioInterpret from_str [Value.string s]
        = if s = "" then Except.ok Json.null
          else Except.ok ((from_str s).getD (Json.str s))) :=
  ⟨stdio_factored svc k w fn from_str params,
    stdio_eventloop_factored svc k w fn from_str params,
    fun _ => rfl⟩

/-- C2: a successful non-empty result string of a Stdio invocation that
does not parse as JSON is returned wrapped as a JSON string value, not as
a failure. -/
theorem stdio_unparsable_result_wrapped_as_string
    (k : InvocationKey) (w : WorkerId) (fn : String)
    (from_str : String → Option Json) (params : Json) (s : String)
    (hne : s ≠ "") (hparse : from_str s = none) :
    invoke_and_await_stdio (constSuccessSvc [Value.string s]) (okKeySvc k)
        from_str w fn params
      = DslOutcome.returns (Except.ok (Json.str s)) := by
  rw [stdio_factored, custom_with_key_constSuccess]
  dsimp only [DslOutcome.bind, Except.bind, specStdioInterpret]
  rw [if_neg hne, hparse]
  rfl

/-- Witness for C2: the result string "abc" under a parser rejecting it. -/
theorem stdio_unparsable_result_wrapped_as_string_witness :
    invoke_and_await_stdio (constSuccessSvc [Value.string ("abc")])
        (okKeySvc ⟨"k"⟩) (fun _ => none) ⟨⟨0⟩, "w"⟩ "f" Json.null
      = DslOutcome.returns (Except.ok (Json.str ("abc"))) :=
  stdio_unparsable_result_wrapped_as_string ⟨"k"⟩ ⟨⟨0⟩, "w"⟩ "f"
    (fun _ => none) Json.null ("abc") (by decide) rfl

/-- C9: a successful Stdio (or StdioEventloop) invocation whose result is
not exactly one string value returns a `BadRequest` with the message
"Expecting a single string as the result value when using stdio calling
convention". -/
theorem stdio_non_single_string_is_bad_request
    (k : InvocationKey) (w : WorkerId) (fn : String)
    (from_str : String → Option Json) (params : Json) (vals : List Value)
    (h : ∀ s, vals ≠ [Value.string s]) :
    invoke_and_await_stdio (constSuccessSvc vals) (okKeySvc k)
        from_str w fn params
      = DslOutcome.returns
          (Except.error (Error.badRequest [stdioExpectMsg]))
    ∧ invoke_and_await_stdio_eventloop (constSuccessSvc vals) (okKeySvc k)
        from_str w fn params
      = DslOutcome.returns
          (Except.error (Error.badRequest [stdioExpectMsg])) := by
  have hval : specStdioInterpret from_str vals
      = Except.error (Error.badRequest [stdioExpectMsg]) := by
    cases vals with
    | nil => rfl
    | cons v vs =>
        cases vs with
        | nil =>
            cases v with
            | string s => exact absurd rfl (h s)
            | _ => rfl
        | cons v2 vs2 => cases v <;> rfl
  constructor
  · rw [stdio_factored, custom_with_key_constSuccess]
    dsimp only [DslOutcome.bind, Except.bind]
    rw [hval]
  · rw [stdio_eventloop_factored, custom_with_key_constSuccess]
    dsimp only [DslOutcome.bind, Except.bind]
    rw [hval]

/-- Witness for C9: a two-element result. -/
theorem stdio_non_single_string_is_bad_request_witness :
    invoke_and_await_stdio
        (constSuccessSvc [Value.u32 1, Value.u32 2]) (okKeySvc ⟨"k"⟩)
        (fun _ => none) ⟨⟨0⟩, "w"⟩ "f" Json.null
      = DslOutcome.returns
          (Except.error (Error.badRequest [stdioExpectMsg]))
    ∧ invoke_and_await_stdio_eventloop
        (constSuccessSvc [Value.u32 1, Value.u32 2]) (okKeySvc ⟨"k"⟩)
        (fun _ => none) ⟨⟨0⟩, "w"⟩ "f" Json.null
      = DslOutcome.returns
          (Except.error (Error.badRequest [stdioExpectMsg])) :=
  stdio_non_single_string_is_bad_request ⟨"k"⟩ ⟨⟨0⟩, "w"⟩ "f"
    (fun _ => none) Json.null [Value.u32 1, Value.u32 2]
    (fun s hs => by cases hs)

/-- C7: for a response envelope that carries either a success payload or
an error with populated detail, the client branches guarding an absent
result or an empty error detail are unreachable: neither
`try_start_worker_with` nor `invoke_and_await_custom_with_key` ends in an
envelope panic. -/
theorem well_formed_envelope_no_envelope_panic
    (r1 : LaunchNewWorkerResponse) (r2 : InvokeAndAwaitResponse)
    (tid : TemplateId) (n : String) (args : List String)
    (env : List (String × String)) (w : WorkerId) (k : InvocationKey)
    (fn : String) (ps : List Value) (cc : CallingConvention)
    (h1 : launchEnvelopeOk r1 = true) (h2 : invokeAwaitEnvelopeOk r2 = true) :
    envelopePanic (try_start_worker_with (fun _ => r1) tid n args env) = false
    ∧ envelopePanic
        (invoke_and_await_custom_with_key (fun _ => r2) w k fn ps cc)
      = false := by
  constructor
  · obtain ⟨res1⟩ := r1
    unfold try_start_worker_with
    dsimp only
    cases res1 with
    | none => simp [launchEnvelopeOk] at h1
    | some r =>
        cases r with
        | success v =>
            dsimp only
            cases hv : v.workerId with
            | none => decide
            | some grpcId =>
                dsimp only
                cases ht : grpcId.tryIntoWorkerId with
                | error e => rfl
                | ok wid => rfl
        | error em =>
            obtain ⟨inner⟩ := em
            cases inner with
            | none => simp [launchEnvelopeOk] at h1
            | some err => rfl
  · obtain ⟨res2⟩ := r2
    unfold invoke_and_await_custom_with_key
    dsimp only
    cases res2 with
    | none => simp [invokeAwaitEnvelopeOk] at h2
    | some r =>
        cases r with
        | success payload =>
            dsimp only
            cases hc : collectValues payload.result with
            | error e => rfl
            | ok vals => rfl
        | error em =>
            obtain ⟨inner⟩ := em
            cases inner with
            | none => simp [invokeAwaitEnvelopeOk] at h2
            | some err => rfl

/-- Witness for C7 at concrete well-formed error envelopes. -/
theorem well_formed_envelope_no_envelope_panic_witness :
    envelopePanic
        (try_start_worker_with
          (fun _ => ⟨some (.error ⟨some (Error.notFound ("x"))⟩)⟩)
          ⟨0⟩ "w" [] [])
      = false
    ∧ envelopePanic
        (invoke_and_await_custom_with_key
          (fun _ => ⟨some (.error ⟨some (Error.notFound ("x"))⟩)⟩)
          ⟨⟨0⟩, "w"⟩ ⟨"k"⟩ "f" [] CallingConvention.component)
      = false :=
  well_formed_envelope_no_envelope_panic _ _ ⟨0⟩ "w" [] [] ⟨⟨0⟩, "w"⟩
    ⟨"k"⟩ "f" [] CallingConvention.component rfl rfl

/-! Round-trip lemmas for the API definition DTO conversions. -/

/-- Bind on a success reduces to the continuation. -/
theorem exceptBind_ok {α β : Type} (a : α) (f : α → Except String β) :
    (Except.ok a >>= f) = f a := rfl

/-- Bind on an error is that error. -/
theorem exceptBind_error {α β : Type} (e : String)
    (f : α → Except String β) :
    ((Except.error e : Except String α) >>= f) = Except.error e := rfl

/-- Bind on a pure value reduces to the continuation. -/
theorem exceptBind_pure {α β : Type} (a : α) (f : α → Except String β) :
    ((pure a : Except String α) >>= f) = f a := rfl

/-- Round trip of `mapE`: if every element round-trips, the list does. -/
theorem mapE_roundtrip {α β : Type} (f : α → Except String β)
    (g : β → Except String α)
    (hfg : ∀ a b, f a = Except.ok b → g b = Except.ok a) :
    ∀ (xs : List α) (ys : List β),
      mapE f xs = Except.ok ys → mapE g ys = Except.ok xs := by
  intro xs
  induction xs with
  | nil =>
      intro ys h
      unfold mapE at h
      cases h
      rfl
  | cons x xs ih =>
      intro ys h
      unfold mapE at h
      cases hf : f x with
      | error e => rw [hf] at h; cases h
      | ok y =>
          rw [hf] at h
          dsimp only at h
          cases hm : mapE f xs with
          | error e => rw [hm] at h; cases h
          | ok ys2 =>
              rw [hm] at h
              dsimp only at h
              cases h
              unfold mapE
              rw [hfg x y hf]
              dsimp only
              rw [ih ys2 hm]

/-- A header entry round-trips through the JSON codec. -/
theorem header_roundtrip {Expr : Type} (c : ExprCodec Expr)
    (hc : ∀ e v, c.toValue e = Except.ok v → c.fromValue v = Except.ok e)
    (kv : String × Expr) (kj : String × Json)
    (h : (do
      let j ← c.toValue kv.2
      pure (kv.1, j) : Except String (String × Json)) = Except.ok kj) :
    (do
      let e ← c.fromValue kj.2
      pure (kj.1, e) : Except String (String × Expr)) = Except.ok kv := by
  cases ht : c.toValue kv.2 with
  | error e => rw [ht, exceptBind_error] at h; cases h
  | ok j =>
      rw [ht, exceptBind_ok] at h
      cases h
      dsimp only
      rw [hc _ _ ht, exceptBind_ok]
      rfl

/-- A response mapping round-trips through the conversions. -/
theorem responseMapping_roundtrip {Expr : Type} (c : ExprCodec Expr)
    (hc : ∀ e v, c.toValue e = Except.ok v → c.fromValue v = Except.ok e)
    (r : ResponseMappingCore Expr) (d : ResponseMappingDto)
    (h : responseMapping_tryFrom c r = Except.ok d) :
    responseMapping_tryInto c d = Except.ok r := by
  unfold responseMapping_tryFrom at h
  cases hb : c.toValue r.body with
  | error e => rw [hb, exceptBind_error] at h; cases h
  | ok body =>
      rw [hb, exceptBind_ok] at h
      cases hs : c.toValue r.status with
      | error e => rw [hs, exceptBind_error] at h; cases h
      | ok status =>
          rw [hs, exceptBind_ok] at h
          cases hh : mapE (fun kv => do
              let j ← c.toValue kv.2
              pure (kv.1, j)) r.headers with
          | error e => rw [hh, exceptBind_error] at h; cases h
          | ok headers =>
              rw [hh, exceptBind_ok] at h
              cases h
              unfold responseMapping_tryInto
              dsimp only
              rw [hc _ _ hb, exceptBind_ok, hc _ _ hs, exceptBind_ok,
                mapE_roundtrip _ _ (header_roundtrip c hc) r.headers
                  headers hh, exceptBind_ok]
              rfl

/-- A worker binding round-trips through the conversions. -/
theorem golemWorkerBinding_roundtrip {Expr : Type} (c : ExprCodec Expr)
    (hc : ∀ e v, c.toValue e = Except.ok v → c.fromValue v = Except.ok e)
    (b : GolemWorkerBindingCore Expr) (d : GolemWorkerBindingDto)
    (h : golemWorkerBinding_tryFrom c b = Except.ok d) :
    golemWorkerBinding_tryInto c d = Except.ok b := by
  unfold golemWorkerBinding_tryFrom at h
  cases hr : b.response with
  | none =>
      rw [hr] at h
      dsimp only at h
      simp only [exceptBind_pure] at h
      cases hw : c.toValue b.workerId with
      | error e => rw [hw] at h; simp only [exceptBind_error] at h; cases h
      | ok wj =>
          rw [hw] at h
          simp only [exceptBind_ok] at h
          cases hp : mapE c.toValue b.functionParams with
          | error e =>
              rw [hp] at h; simp only [exceptBind_error] at h; cases h
          | ok pj =>
              rw [hp] at h
              simp only [exceptBind_ok] at h
              cases h
              unfold golemWorkerBinding_tryInto
              dsimp only
              simp only [exceptBind_pure]
              rw [hc _ _ hw, exceptBind_ok,
                mapE_roundtrip _ _ hc b.functionParams pj hp,
                exceptBind_ok]
              rw [← hr]
              rfl
  | some rm =>
      rw [hr] at h
      dsimp only at h
      cases hrm : responseMapping_tryFrom c rm with
      | error e =>
          rw [hrm] at h
          simp only [exceptBind_error] at h
          cases h
      | ok rd =>
          rw [hrm] at h
          simp only [exceptBind_ok, exceptBind_pure] at h
          cases hw : c.toValue b.workerId with
          | error e =>
              rw [hw] at h; simp only [exceptBind_error] at h; cases h
          | ok wj =>
              rw [hw] at h
              simp only [exceptBind_ok] at h
              cases hp : mapE c.toValue b.functionParams with
              | error e =>
                  rw [hp] at h; simp only [exceptBind_error] at h; cases h
              | ok pj =>
                  rw [hp] at h
                  simp only [exceptBind_ok] at h
                  cases h
                  unfold golemWorkerBinding_tryInto
                  dsimp only
                  rw [responseMapping_roundtrip c hc rm rd hrm]
                  simp only [exceptBind_ok, exceptBind_pure]
                  rw [hc _ _ hw, exceptBind_ok,
                    mapE_roundtrip _ _ hc b.functionParams pj hp,
                    exceptBind_ok]
                  rw [← hr]
                  rfl

/-- A route round-trips through the conversions. -/
theorem route_roundtrip {Expr PathPattern : Type} (c : ExprCodec Expr)
    (pc : PathCodec PathPattern)
    (hc : ∀ e v, c.toValue e = Except.ok v → c.fromValue v = Except.ok e)
    (hp : ∀ p, pc.parsePath (pc.render p) = Except.ok p)
    (r : RouteCore Expr PathPattern) (d : RouteDto)
    (h : route_tryFrom c pc r = Except.ok d) :
    route_tryInto c pc d = Except.ok r := by
  unfold route_tryFrom at h
  cases hb : golemWorkerBinding_tryFrom c r.binding with
  | error e => rw [hb, exceptBind_error] at h; cases h
  | ok bd =>
      rw [hb, exceptBind_ok] at h
      cases h
      unfold route_tryInto
      dsimp only
      rw [hp r.path, exceptBind_ok,
        golemWorkerBinding_roundtrip c hc r.binding bd hb, exceptBind_ok]
      rfl

/-- C10: an internal API definition whose routes, worker-id expressions
and response-mapping expressions are JSON-serialisable (its conversion to
the HTTP DTO succeeds) is restored exactly by converting the DTO back,
provided the external expression codec and path parser round-trip. -/
theorem api_definition_dto_roundtrip {Expr PathPattern : Type}
    (c : ExprCodec Expr) (pc : PathCodec PathPattern)
    (hc : ∀ e v, c.toValue e = Except.ok v → c.fromValue v = Except.ok e)
    (hp : ∀ p, pc.parsePath (pc.render p) = Except.ok p)
    (d : ApiDefinitionCore Expr PathPattern) (dto : ApiDefinitionDto)
    (h : apiDefinition_tryFrom c pc d = Except.ok dto) :
    apiDefinition_tryInto c pc dto = Except.ok d := by
  unfold apiDefinition_tryFrom at h
  cases hr : mapE (route_tryFrom c pc) d.routes with
  | error e => rw [hr, exceptBind_error] at h; cases h
  | ok rs =>
      rw [hr, exceptBind_ok] at h
      cases h
      unfold apiDefinition_tryInto
      rw [mapE_roundtrip (route_tryFrom c pc) (route_tryInto c pc)
        (route_roundtrip c pc hc hp) d.routes rs hr, exceptBind_ok]
      rfl

/-- Witness for C10 at a concrete one-route API definition. -/
theorem api_definition_dto_roundtrip_witness :
    apiDefinition_tryInto unitCodec stringPathCodec apiDto0
      = Except.ok apiDef0 :=
  api_definition_dto_roundtrip unitCodec stringPathCodec
    (fun _ _ _ => rfl) (fun _ => rfl) apiDef0 apiDto0 rfl

end GolemSpec
